import Mathlib

/-!
Verification of the loan-calculator core (`src/app/index.tsx`).

The embedding models the numeric core of the application: the schedule
generator `generateTableData` with its helper `calculateInterest`, the
zod validation bounds for `loanAmount`, the months blur repair handler
`handleMonthsBlur`, the interest-rate save/load paths, and the
selected-month summary lookup `getSelectedMonthSummary`.

JavaScript numbers are modelled as exact rationals (`ℚ`); the distinguished
JavaScript values `undefined` and `NaN`, which several handlers branch on,
are modelled explicitly: `Option` for `undefined`, and the two-constructor
type `JSNum` (`nan` or an exact rational) where `NaN` can flow.
-/

namespace LoanCalc

/-- A JavaScript number as seen by the form handlers: either `NaN`
    or an exact numeric value (modelled as a rational). -/
inductive JSNum where
  | nan : JSNum
  | num (q : ℚ) : JSNum
deriving DecidableEq, Repr

/-- One row of the schedule table, as pushed by `generateTableData`
    (fields `month`, `interestAmount`, `totalAmount`, `monthlyPayment`). -/
structure ScheduleRow where
  month : ℕ
  interestAmount : ℚ
  totalAmount : ℚ
  monthlyPayment : ℚ
deriving DecidableEq, Repr

/-- `calculateInterest` (index.tsx lines 92-108):
    `loan * (rate / 100) * numMonths`. The guards on `NaN`/`undefined`
    arguments in the source are vacuous here: every call inside the
    generator passes definite numbers (the loop counter and the two
    inputs already checked against `undefined`), and `ℚ` has no `NaN`. -/
def calculateInterest (loan rate numMonths : ℚ) : ℚ :=
  loan * (rate / 100) * numMonths

/-- The display horizon computed in `generateTableData` line 118:
    `Math.min(Math.ceil(months / 12) * 12, 360)`. -/
def actualMonthsToShow (months : ℚ) : ℤ :=
  min (⌈months / 12⌉ * 12) 360

/-- The loop body of `generateTableData` (lines 120-130) for loop
    counter `i`: interest from `calculateInterest`, then
    `totalAmount = loanAmount + interest` and
    `monthlyPayment = i > 0 ? totalAmount / i : totalAmount`. -/
def scheduleRow (loan rate : ℚ) (i : ℕ) : ScheduleRow :=
  let interest := calculateInterest loan rate (i : ℚ)
  let totalAmount := loan + interest
  let monthlyPayment := if 0 < i then totalAmount / (i : ℚ) else totalAmount
  { month := i
    interestAmount := interest
    totalAmount := totalAmount
    monthlyPayment := monthlyPayment }

/-- `generateTableData` (index.tsx lines 110-134). Produces a row for
    each `i` from `1` to `actualMonthsToShow` when `loanAmount`,
    `interestRatePerMonth` and `months` are all defined and
    `months >= 1`; otherwise the empty list. -/
def generateTableData (loanAmount interestRatePerMonth months : Option ℚ) :
    List ScheduleRow :=
  match loanAmount, interestRatePerMonth, months with
  | some loan, some rate, some m =>
      if 1 ≤ m then
        (List.range' 1 (actualMonthsToShow m).toNat).map (scheduleRow loan rate)
      else []
  | _, _, _ => []

/-- The `selectedMonth` effect (index.tsx lines 187-193): whenever
    `months` changes, `selectedMonth` is set to `months` when defined,
    else to `null`. This is the default selection state, before any
    explicit row pick. -/
def selectedMonthEffect (months : Option ℕ) : Option ℕ :=
  match months with
  | some m => some m
  | none => none

/-- `getSelectedMonthSummary` (index.tsx lines 138-145): with no
    selection, the first row of `tableData` if any; otherwise the first
    row whose `month` equals the selection (`tableData.find`). -/
def getSelectedMonthSummary (selectedMonth : Option ℕ)
    (tableData : List ScheduleRow) : Option ScheduleRow :=
  match selectedMonth with
  | none => tableData.head?
  | some m => tableData.find? (fun item => item.month == m)

/-- JavaScript `x || 0` on `number | undefined`: `undefined`, `NaN` and
    `0` are falsy and give `0`; any other number is returned. -/
def jsOrZero : Option JSNum → JSNum
  | none => .num 0
  | some .nan => .num 0
  | some (.num q) => if q = 0 then .num 0 else .num q

/-- JavaScript `isNaN` on a number. -/
def jsIsNaN : JSNum → Bool
  | .nan => true
  | .num _ => false

/-- JavaScript `x < q` on `number | undefined`: comparisons against
    `undefined` or `NaN` are `false`. -/
def jsLt : Option JSNum → ℚ → Bool
  | none, _ => false
  | some .nan, _ => false
  | some (.num x), q => decide (x < q)

/-- JavaScript `x > q` on `number | undefined`: comparisons against
    `undefined` or `NaN` are `false`. -/
def jsGt : Option JSNum → ℚ → Bool
  | none, _ => false
  | some .nan, _ => false
  | some (.num x), q => decide (q < x)

/-- `handleMonthsBlur` (index.tsx lines 216-227), acting on the current
    `months` field value and returning its new value:
    `if (isNaN(currentMonths || 0) || currentMonths === undefined ||
    currentMonths < 1) set 1; else if (currentMonths > 360) set 360`. -/
def handleMonthsBlur (currentMonths : Option JSNum) : Option JSNum :=
  if jsIsNaN (jsOrZero currentMonths) || currentMonths == none
      || jsLt currentMonths 1 then
    some (.num 1)
  else if jsGt currentMonths 360 then
    some (.num 360)
  else
    currentMonths

/-- `handleSaveInterestRate` (index.tsx lines 234-243) composed with
    `saveCustomInterestRate` (lines 150-162): when the modal value is
    defined and not `NaN`, the rate is written to the Preference Store
    (`AsyncStorage.setItem`); otherwise an alert is shown and nothing is
    written. The result is the value written to the store, `none` when
    no store write occurs. -/
def handleSaveInterestRate (modalInterestRate : Option JSNum) : Option ℚ :=
  match modalInterestRate with
  | some (.num q) => some q
  | some .nan => none
  | none => none

/-- `loadCustomInterestRate` (index.tsx lines 165-184), acting on the
    parsed stored value (`none` when no key is stored, `JSNum.nan` when
    `parseFloat` failed): a stored rate in `[0.1, 100]` is installed as
    the form rate; any other stored value is discarded and the rate
    reset to `10`. The result is the rate value installed by the load,
    `none` when no stored value existed. -/
def loadCustomInterestRate (storedRate : Option JSNum) : Option ℚ :=
  match storedRate with
  | none => none
  | some .nan => some 10
  | some (.num q) => if 0.1 ≤ q ∧ q ≤ 100 then some q else some 10

/-- Outcome of validating the parsed `loanAmount` against the zod schema
    (index.tsx lines 34-38): `.min(1, "Loan amount must be greater than
    0").max(1000000, "Loan amount must be less than 1,000,000")`.
    `none` means the value passes; `some msg` is the reported error. -/
def validateLoanAmount (value : ℚ) : Option String :=
  if value < 1 then some "Loan amount must be greater than 0"
  else if 1000000 < value then some "Loan amount must be less than 1,000,000"
  else none

/-! ## Helper lemmas about the embedded definitions -/

theorem scheduleRow_month (loan rate : ℚ) (i : ℕ) :
    (scheduleRow loan rate i).month = i := rfl

theorem scheduleRow_interest (loan rate : ℚ) (i : ℕ) :
    (scheduleRow loan rate i).interestAmount = loan * (rate / 100) * i := rfl

theorem scheduleRow_total (loan rate : ℚ) (i : ℕ) :
    (scheduleRow loan rate i).totalAmount = loan + loan * (rate / 100) * i := rfl

theorem scheduleRow_payment (loan rate : ℚ) (i : ℕ) (h : 0 < i) :
    (scheduleRow loan rate i).monthlyPayment =
      (loan + loan * (rate / 100) * i) / i := by
  simp [scheduleRow, calculateInterest, h]

theorem generateTableData_some (loan rate m : ℚ) (hm : 1 ≤ m) :
    generateTableData (some loan) (some rate) (some m) =
      (List.range' 1 (actualMonthsToShow m).toNat).map (scheduleRow loan rate) := by
  simp [generateTableData, hm]

theorem actualMonthsToShow_nonneg (m : ℚ) (hm : 0 ≤ m) :
    0 ≤ actualMonthsToShow m := by
  unfold actualMonthsToShow
  refine le_min (mul_nonneg (Int.ceil_nonneg (by positivity)) (by norm_num)) (by norm_num)

theorem le_actualMonthsToShow (t : ℕ) (ht : t ≤ 360) :
    (t : ℤ) ≤ actualMonthsToShow (t : ℚ) := by
  unfold actualMonthsToShow
  refine le_min ?_ (by exact_mod_cast ht)
  have h1 : ((t : ℚ)) ≤ (⌈(t : ℚ) / 12⌉ : ℚ) * 12 := by
    have := Int.le_ceil ((t : ℚ) / 12)
    calc (t : ℚ) = (t : ℚ) / 12 * 12 := by ring
    _ ≤ (⌈(t : ℚ) / 12⌉ : ℚ) * 12 := by
        exact mul_le_mul_of_nonneg_right this (by norm_num)
  exact_mod_cast h1

theorem le_actualMonthsToShow_toNat (t : ℕ) (ht : t ≤ 360) :
    t ≤ (actualMonthsToShow (t : ℚ)).toNat := by
  rw [Int.le_toNat (actualMonthsToShow_nonneg _ (by positivity))]
  exact le_actualMonthsToShow t ht

theorem mem_generateTableData {loan rate m : ℚ} {row : ScheduleRow}
    (h : row ∈ generateTableData (some loan) (some rate) (some m)) :
    ∃ i, 1 ≤ i ∧ i ≤ (actualMonthsToShow m).toNat ∧ row = scheduleRow loan rate i := by
  by_cases hm : 1 ≤ m
  · rw [generateTableData_some loan rate m hm] at h
    simp only [List.mem_map, List.mem_range'] at h
    obtain ⟨i, ⟨k, hk, hik⟩, hrow⟩ := h
    exact ⟨i, by omega, by omega, hrow.symm⟩
  · simp [generateTableData, hm] at h

theorem find?_beq_range' (v s n : ℕ) (h1 : s ≤ v) (h2 : v < s + n) :
    (List.range' s n).find? (fun j => j == v) = some v := by
  induction n generalizing s with
  | zero => omega
  | succ n ih =>
    rw [List.range'_succ]
    by_cases hs : s = v
    · subst hs
      exact List.find?_cons_of_pos _ (by simp)
    · rw [List.find?_cons_of_neg _ (by simp [hs])]
      exact ih (s + 1) (by omega) (by omega)

theorem find?_month_eq (loan rate : ℚ) (t n : ℕ) (h1 : 1 ≤ t) (h2 : t ≤ n) :
    ((List.range' 1 n).map (scheduleRow loan rate)).find?
        (fun item => item.month == t) = some (scheduleRow loan rate t) := by
  rw [List.find?_map]
  have hp : ((fun item : ScheduleRow => item.month == t) ∘ scheduleRow loan rate) =
      fun j => j == t := funext fun j => by simp [scheduleRow]
  rw [hp, find?_beq_range' t 1 n h1 (by omega)]
  rfl

/-! ## Concrete evaluations used by witnesses and counterexamples -/

theorem actualMonthsToShow_one : (actualMonthsToShow 1).toNat = 12 := by
  unfold actualMonthsToShow
  rw [show ⌈(1 : ℚ) / 12⌉ = 1 by rw [Int.ceil_eq_iff]; norm_num]
  decide

theorem actualMonthsToShow_five : (actualMonthsToShow 5).toNat = 12 := by
  unfold actualMonthsToShow
  rw [show ⌈(5 : ℚ) / 12⌉ = 1 by rw [Int.ceil_eq_iff]; norm_num]
  decide

theorem scheduleRow_mem_gen_one (loan rate : ℚ) (i : ℕ)
    (hi : i ∈ List.range' 1 12) :
    scheduleRow loan rate i ∈ generateTableData (some loan) (some rate) (some 1) := by
  rw [generateTableData_some loan rate 1 (by norm_num), actualMonthsToShow_one]
  exact List.mem_map_of_mem _ hi

theorem scheduleRow_mem_one (loan rate : ℚ) :
    scheduleRow loan rate 1 ∈ generateTableData (some loan) (some rate) (some 1) :=
  scheduleRow_mem_gen_one loan rate 1 (by decide)

theorem jsIsNaN_jsOrZero (cur : Option JSNum) : jsIsNaN (jsOrZero cur) = false := by
  rcases cur with _ | j
  · rfl
  rcases j with _ | q
  · rfl
  · rcases eq_or_ne q 0 with h | h <;> simp [jsOrZero, jsIsNaN, h]

theorem some_beq_none (j : JSNum) : ((some j : Option JSNum) == none) = false := rfl

/-! ## Claim theorems -/

/-- C1: every schedule row produced by the generator from inputs
`(principal, monthlyRatePercent)` and row index `month` satisfies
`interestAmount = principal * (monthlyRatePercent / 100) * month` (flat
simple interest on the original principal, no compounding),
`totalAmount = principal + interestAmount`, and
`monthlyPayment = totalAmount / month`. -/
theorem C1_flat_simple_interest (loan rate m : ℚ) (row : ScheduleRow)
    (hmem : row ∈ generateTableData (some loan) (some rate) (some m)) :
    row.interestAmount = loan * (rate / 100) * row.month ∧
    row.totalAmount = loan + row.interestAmount ∧
    row.monthlyPayment = row.totalAmount / row.month := by
  obtain ⟨i, h1, h2, rfl⟩ := mem_generateTableData hmem
  refine ⟨?_, ?_, ?_⟩
  · rw [scheduleRow_interest, scheduleRow_month]
  · rw [scheduleRow_total, scheduleRow_interest]
  · rw [scheduleRow_payment loan rate i (by omega), scheduleRow_total,
      scheduleRow_month]

/-- Witness for C1 at `principal = 1000`, `rate = 10`, `months = 1`,
on the first schedule row. -/
theorem C1_flat_simple_interest_witness :
    (⟨1, 100, 1100, 1100⟩ : ScheduleRow) ∈
        generateTableData (some 1000) (some 10) (some 1) ∧
    ((⟨1, 100, 1100, 1100⟩ : ScheduleRow).interestAmount =
        1000 * (10 / 100) * (⟨1, 100, 1100, 1100⟩ : ScheduleRow).month ∧
      (⟨1, 100, 1100, 1100⟩ : ScheduleRow).totalAmount =
        1000 + (⟨1, 100, 1100, 1100⟩ : ScheduleRow).interestAmount ∧
      (⟨1, 100, 1100, 1100⟩ : ScheduleRow).monthlyPayment =
        (⟨1, 100, 1100, 1100⟩ : ScheduleRow).totalAmount /
          (⟨1, 100, 1100, 1100⟩ : ScheduleRow).month) := by
  have hrow : scheduleRow 1000 10 1 = ⟨1, 100, 1100, 1100⟩ := by
    norm_num [scheduleRow, calculateInterest]
  have hmem := scheduleRow_mem_one 1000 10
  rw [hrow] at hmem
  exact ⟨hmem, C1_flat_simple_interest 1000 10 1 _ hmem⟩

/-- C2: for every valid input triple (`principal ∈ [1, 1000000]`,
`monthlyRatePercent ∈ [0.1, 100]`, `termMonths` an integer in
`[1, 360]`), the generated schedule has length exactly
`min(ceil(termMonths / 12) * 12, 360)`, and its rows carry month values
exactly `1, 2, ..., length` in increasing order. -/
theorem C2_schedule_length_and_months (loan rate : ℚ) (t : ℕ)
    (hl1 : 1 ≤ loan) (hl2 : loan ≤ 1000000)
    (hr1 : 1/10 ≤ rate) (hr2 : rate ≤ 100)
    (ht1 : 1 ≤ t) (ht2 : t ≤ 360) :
    ((generateTableData (some loan) (some rate) (some (t : ℚ))).length : ℤ) =
      min (⌈(t : ℚ) / 12⌉ * 12) 360 ∧
    (generateTableData (some loan) (some rate) (some (t : ℚ))).map (·.month) =
      List.range' 1
        (generateTableData (some loan) (some rate) (some (t : ℚ))).length := by
  have hm : (1 : ℚ) ≤ (t : ℚ) := by exact_mod_cast ht1
  have hgen := generateTableData_some loan rate (t : ℚ) hm
  have hlen : (generateTableData (some loan) (some rate) (some (t : ℚ))).length =
      (actualMonthsToShow (t : ℚ)).toNat := by
    rw [hgen, List.length_map, List.length_range']
  constructor
  · rw [hlen, Int.toNat_of_nonneg (actualMonthsToShow_nonneg _ (by positivity))]
    rfl
  · rw [hlen, hgen, List.map_map]
    have hcomp : ((fun x : ScheduleRow => x.month) ∘ scheduleRow loan rate) = id :=
      funext fun i => scheduleRow_month loan rate i
    rw [hcomp, List.map_id]

/-- Witness for C2 at `principal = 1000`, `rate = 10`, `term = 5`. -/
theorem C2_schedule_length_and_months_witness :
    ((1 : ℚ) ≤ 1000 ∧ (1000 : ℚ) ≤ 1000000 ∧ (1/10 : ℚ) ≤ 10 ∧ (10 : ℚ) ≤ 100 ∧
      1 ≤ 5 ∧ 5 ≤ 360) ∧
    (((generateTableData (some 1000) (some 10) (some ((5 : ℕ) : ℚ))).length : ℤ) =
        min (⌈((5 : ℕ) : ℚ) / 12⌉ * 12) 360 ∧
      (generateTableData (some 1000) (some 10) (some ((5 : ℕ) : ℚ))).map (·.month) =
        List.range' 1
          (generateTableData (some 1000) (some 10) (some ((5 : ℕ) : ℚ))).length) :=
  ⟨by norm_num,
    C2_schedule_length_and_months 1000 10 5 (by norm_num) (by norm_num)
      (by norm_num) (by norm_num) (by norm_num) (by norm_num)⟩

/-- C8: whenever any one of `principal`, `monthlyRatePercent` or
`termMonths` is absent (`undefined`), the schedule generator returns the
empty sequence rather than raising an error. -/
theorem C8_absent_input_empty_schedule (a r m : Option ℚ)
    (h : a = none ∨ r = none ∨ m = none) :
    generateTableData a r m = [] := by
  rcases a with _ | a <;> rcases r with _ | r <;> rcases m with _ | m <;>
    first
      | rfl
      | (rcases h with h | h | h <;> simp at h)

/-- Witness for C8 with an absent principal. -/
theorem C8_absent_input_empty_schedule_witness :
    ((none : Option ℚ) = none ∨ (some (10 : ℚ)) = none ∨ (some (1 : ℚ)) = none) ∧
    generateTableData none (some 10) (some 1) = [] :=
  ⟨Or.inl rfl, C8_absent_input_empty_schedule none (some 10) (some 1) (Or.inl rfl)⟩

/-- C9: every row emitted by the schedule generator has `month ≥ 1`, so
the division computing `monthlyPayment = totalAmount / month` never
divides by zero: on every emitted row the fallback branch for
`month ≤ 0` is not taken and `monthlyPayment` equals
`totalAmount / month`. -/
theorem C9_month_ge_one_no_div_by_zero (a r m : Option ℚ) (row : ScheduleRow)
    (h : row ∈ generateTableData a r m) :
    1 ≤ row.month ∧ row.monthlyPayment = row.totalAmount / (row.month : ℚ) := by
  rcases a with _ | loan
  · simp [generateTableData] at h
  rcases r with _ | rate
  · simp [generateTableData] at h
  rcases m with _ | mm
  · simp [generateTableData] at h
  obtain ⟨i, h1, h2, rfl⟩ := mem_generateTableData h
  refine ⟨by rw [scheduleRow_month]; omega, ?_⟩
  rw [scheduleRow_payment loan rate i (by omega), scheduleRow_total,
    scheduleRow_month]

/-- Witness for C9 at `principal = 200`, `rate = 50`, `months = 1`. -/
theorem C9_month_ge_one_no_div_by_zero_witness :
    (⟨1, 100, 300, 300⟩ : ScheduleRow) ∈
        generateTableData (some 200) (some 50) (some 1) ∧
    (1 ≤ (⟨1, 100, 300, 300⟩ : ScheduleRow).month ∧
      (⟨1, 100, 300, 300⟩ : ScheduleRow).monthlyPayment =
        (⟨1, 100, 300, 300⟩ : ScheduleRow).totalAmount /
          ((⟨1, 100, 300, 300⟩ : ScheduleRow).month : ℚ)) := by
  have hrow : scheduleRow 200 50 1 = ⟨1, 100, 300, 300⟩ := by
    norm_num [scheduleRow, calculateInterest]
  have hmem := scheduleRow_mem_one 200 50
  rw [hrow] at hmem
  exact ⟨hmem, C9_month_ge_one_no_div_by_zero (some 200) (some 50) (some 1) _ hmem⟩

/-- C7: for every valid input triple with positive principal and
positive rate, `interestAmount` and `totalAmount` are strictly
increasing in the row's month across the schedule, and `monthlyPayment`
is non-increasing from any month to any later month (in particular from
each month to the next). -/
theorem C7_monotonicity (loan rate : ℚ) (t : ℕ)
    (hl1 : 1 ≤ loan) (hl2 : loan ≤ 1000000)
    (hr1 : 1/10 ≤ rate) (hr2 : rate ≤ 100)
    (ht1 : 1 ≤ t) (ht2 : t ≤ 360) (row1 row2 : ScheduleRow)
    (h1 : row1 ∈ generateTableData (some loan) (some rate) (some (t : ℚ)))
    (h2 : row2 ∈ generateTableData (some loan) (some rate) (some (t : ℚ)))
    (hlt : row1.month < row2.month) :
    row1.interestAmount < row2.interestAmount ∧
    row1.totalAmount < row2.totalAmount ∧
    row2.monthlyPayment ≤ row1.monthlyPayment := by
  obtain ⟨i, hi1, hi2, rfl⟩ := mem_generateTableData h1
  obtain ⟨j, hj1, hj2, rfl⟩ := mem_generateTableData h2
  rw [scheduleRow_month, scheduleRow_month] at hlt
  have hloan : (0 : ℚ) < loan := by linarith
  have hrate : (0 : ℚ) < rate := by linarith
  have hc : (0 : ℚ) < loan * (rate / 100) := by positivity
  have hcast : (i : ℚ) < (j : ℚ) := by exact_mod_cast hlt
  have hi0 : (0 : ℚ) < (i : ℚ) := Nat.cast_pos.mpr (by omega)
  have hj0 : (0 : ℚ) < (j : ℚ) := Nat.cast_pos.mpr (by omega)
  refine ⟨?_, ?_, ?_⟩
  · rw [scheduleRow_interest, scheduleRow_interest]
    exact mul_lt_mul_of_pos_left hcast hc
  · rw [scheduleRow_total, scheduleRow_total]
    exact add_lt_add_left (mul_lt_mul_of_pos_left hcast hc) loan
  · rw [scheduleRow_payment loan rate i (by omega),
      scheduleRow_payment loan rate j (by omega)]
    have hsplit : ∀ x : ℚ, x ≠ 0 →
        (loan + loan * (rate / 100) * x) / x = loan / x + loan * (rate / 100) := by
      intro x hx
      rw [add_div, mul_div_assoc, div_self hx, mul_one]
    rw [hsplit _ (ne_of_gt hi0), hsplit _ (ne_of_gt hj0)]
    have hdiv : loan / (j : ℚ) ≤ loan / (i : ℚ) :=
      div_le_div_of_nonneg_left (le_of_lt hloan) hi0 (le_of_lt hcast)
    linarith

/-- Witness for C7 at `principal = 1000`, `rate = 10`, `term = 1`, on
the rows for months 1 and 2. -/
theorem C7_monotonicity_witness :
    (scheduleRow 1000 10 1 ∈
        generateTableData (some 1000) (some 10) (some ((1 : ℕ) : ℚ)) ∧
      scheduleRow 1000 10 2 ∈
        generateTableData (some 1000) (some 10) (some ((1 : ℕ) : ℚ)) ∧
      (scheduleRow 1000 10 1).month < (scheduleRow 1000 10 2).month) ∧
    ((scheduleRow 1000 10 1).interestAmount <
        (scheduleRow 1000 10 2).interestAmount ∧
      (scheduleRow 1000 10 1).totalAmount < (scheduleRow 1000 10 2).totalAmount ∧
      (scheduleRow 1000 10 2).monthlyPayment ≤
        (scheduleRow 1000 10 1).monthlyPayment) := by
  have hc : ((1 : ℕ) : ℚ) = 1 := Nat.cast_one
  have hm1 : scheduleRow 1000 10 1 ∈
      generateTableData (some 1000) (some 10) (some ((1 : ℕ) : ℚ)) := by
    rw [hc]
    exact scheduleRow_mem_gen_one 1000 10 1 (by decide)
  have hm2 : scheduleRow 1000 10 2 ∈
      generateTableData (some 1000) (some 10) (some ((1 : ℕ) : ℚ)) := by
    rw [hc]
    exact scheduleRow_mem_gen_one 1000 10 2 (by decide)
  have hlt : (scheduleRow 1000 10 1).month < (scheduleRow 1000 10 2).month := by
    decide
  exact ⟨⟨hm1, hm2, hlt⟩,
    C7_monotonicity 1000 10 1 (by norm_num) (by norm_num) (by norm_num)
      (by norm_num) (by norm_num) (by norm_num) _ _ hm1 hm2 hlt⟩

/-- C10: for every defined `termMonths` with `1 ≤ termMonths ≤ 360` (and
the other two inputs present), the display horizon is at least
`termMonths` and the generated schedule contains a row whose month
equals `termMonths`, so the default focus on the term's row resolves to
an existing row. -/
theorem C10_term_row_exists (loan rate : ℚ) (t : ℕ)
    (ht1 : 1 ≤ t) (ht2 : t ≤ 360) :
    (t : ℤ) ≤ actualMonthsToShow (t : ℚ) ∧
    ∃ row ∈ generateTableData (some loan) (some rate) (some (t : ℚ)),
      row.month = t := by
  refine ⟨le_actualMonthsToShow t ht2, scheduleRow loan rate t, ?_, rfl⟩
  rw [generateTableData_some loan rate _ (by exact_mod_cast ht1)]
  refine List.mem_map_of_mem _ ?_
  rw [List.mem_range']
  have := le_actualMonthsToShow_toNat t ht2
  exact ⟨t - 1, by omega, by omega⟩

/-- Witness for C10 at `principal = 500`, `rate = 7`, `term = 5`. -/
theorem C10_term_row_exists_witness :
    (1 ≤ 5 ∧ 5 ≤ 360) ∧
    (((5 : ℕ) : ℤ) ≤ actualMonthsToShow ((5 : ℕ) : ℚ) ∧
      ∃ row ∈ generateTableData (some 500) (some 7) (some ((5 : ℕ) : ℚ)),
        row.month = 5) :=
  ⟨by norm_num, C10_term_row_exists 500 7 5 (by norm_num) (by norm_num)⟩

/-- C5 as stated is false: with `termMonths = 5` the focused row (month
5) is not the last row of the schedule (month 12). -/
theorem C5_counterexample :
    getSelectedMonthSummary (selectedMonthEffect (some 5))
        (generateTableData (some 1000) (some 10) (some 5)) ≠
      (generateTableData (some 1000) (some 10) (some 5)).getLast? := by
  have hgen : generateTableData (some 1000) (some 10) (some 5) =
      (List.range' 1 12).map (scheduleRow 1000 10) := by
    rw [generateTableData_some 1000 10 5 (by norm_num), actualMonthsToShow_five]
  have hfind : getSelectedMonthSummary (selectedMonthEffect (some 5))
      (generateTableData (some 1000) (some 10) (some 5)) =
      some (scheduleRow 1000 10 5) := by
    show (generateTableData (some 1000) (some 10) (some 5)).find?
        (fun item => item.month == 5) = some (scheduleRow 1000 10 5)
    rw [hgen]
    exact find?_month_eq 1000 10 5 12 (by norm_num) (by norm_num)
  have hlast : (generateTableData (some 1000) (some 10) (some 5)).getLast? =
      some (scheduleRow 1000 10 12) := by
    rw [hgen, List.getLast?_map, List.getLast?_range']
    norm_num
  intro h
  rw [hfind, hlast] at h
  have h5 : (5 : ℕ) = 12 := by
    have hrow := Option.some.inj h
    calc (5 : ℕ) = (scheduleRow 1000 10 5).month := rfl
    _ = (scheduleRow 1000 10 12).month := by rw [hrow]
    _ = 12 := rfl
  omega

/-- C5 amended: in the default selection state the focused row is the
row whose month equals `termMonths`; it is additionally the last row of
the schedule when `termMonths` is a multiple of 12 (in general the last
row is the display horizon, not the term). -/
theorem C5_default_selection (loan rate : ℚ) (t : ℕ)
    (ht1 : 1 ≤ t) (ht2 : t ≤ 360) :
    ∃ row, getSelectedMonthSummary (selectedMonthEffect (some t))
        (generateTableData (some loan) (some rate) (some (t : ℚ))) = some row ∧
      row.month = t ∧
      (12 ∣ t →
        (generateTableData (some loan) (some rate) (some (t : ℚ))).getLast? =
          some row) := by
  have hm : (1 : ℚ) ≤ (t : ℚ) := by exact_mod_cast ht1
  have hgen := generateTableData_some loan rate (t : ℚ) hm
  refine ⟨scheduleRow loan rate t, ?_, rfl, ?_⟩
  · show (generateTableData (some loan) (some rate) (some (t : ℚ))).find?
        (fun item => item.month == t) = some (scheduleRow loan rate t)
    rw [hgen]
    exact find?_month_eq loan rate t _ ht1 (le_actualMonthsToShow_toNat t ht2)
  · rintro ⟨c, rfl⟩
    have hhor : (actualMonthsToShow ((12 * c : ℕ) : ℚ)).toNat = 12 * c := by
      unfold actualMonthsToShow
      have hdiv : ((12 * c : ℕ) : ℚ) / 12 = (c : ℚ) := by
        push_cast
        ring
      rw [hdiv, Int.ceil_natCast]
      have hmin : min ((c : ℤ) * 12) 360 = (c : ℤ) * 12 := by
        rw [min_eq_left]
        omega
      rw [hmin]
      omega
    rw [hgen, hhor, List.getLast?_map, List.getLast?_range']
    have hc0 : 12 * c ≠ 0 := by omega
    rw [if_neg hc0]
    have : 1 + 12 * c - 1 = 12 * c := by omega
    rw [this]
    rfl

/-- Witness for C5 amended at `principal = 1000`, `rate = 10`,
`term = 12` (a multiple of 12, exercising the last-row conjunct). -/
theorem C5_default_selection_witness :
    (1 ≤ 12 ∧ 12 ≤ 360) ∧
    (∃ row, getSelectedMonthSummary (selectedMonthEffect (some 12))
        (generateTableData (some 1000) (some 10) (some ((12 : ℕ) : ℚ))) =
          some row ∧
      row.month = 12 ∧
      (12 ∣ 12 →
        (generateTableData (some 1000) (some 10)
            (some ((12 : ℕ) : ℚ))).getLast? = some row)) :=
  ⟨by norm_num, C5_default_selection 1000 10 12 (by norm_num) (by norm_num)⟩

/-- C3 as stated is false: the save handler writes the out-of-range rate
`500` to the Preference Store (no range check happens on save). -/
theorem C3_counterexample :
    handleSaveInterestRate (some (JSNum.num 500)) = some 500 ∧
    ¬((1/10 : ℚ) ≤ 500 ∧ (500 : ℚ) ≤ 100) := by
  refine ⟨rfl, ?_⟩
  rintro ⟨-, h⟩
  norm_num at h

/-- C3 amended: the save operation writes every defined, non-`NaN`
numeric rate to the Preference Store, including out-of-range ones; only
an undefined or `NaN` candidate is refused. The range check
`[0.1, 100]` is enforced on load instead: any rate installed by the
load path lies in `[0.1, 100]` (an out-of-range stored value is
discarded and replaced by the default 10). -/
theorem C3_save_and_load (c : Option JSNum) (s : JSNum) (q : ℚ)
    (hq : loadCustomInterestRate (some s) = some q) :
    ((handleSaveInterestRate c).isSome ↔ ∃ x, c = some (JSNum.num x)) ∧
    (0.1 ≤ q ∧ q ≤ 100) := by
  constructor
  · constructor
    · intro h
      rcases c with _ | j
      · simp [handleSaveInterestRate] at h
      rcases j with _ | x
      · simp [handleSaveInterestRate] at h
      · exact ⟨x, rfl⟩
    · rintro ⟨x, rfl⟩
      rfl
  · rcases s with _ | x
    · have h10 : q = 10 := (Option.some.inj hq).symm
      subst h10
      norm_num
    · simp only [loadCustomInterestRate] at hq
      by_cases hx : (0.1 : ℚ) ≤ x ∧ x ≤ 100
      · rw [if_pos hx] at hq
        have := Option.some.inj hq
        subst this
        exact hx
      · rw [if_neg hx] at hq
        have h10 : q = 10 := (Option.some.inj hq).symm
        subst h10
        norm_num

/-- Witness for C3 amended: candidate `12.5`, stored value `12.5`. -/
theorem C3_save_and_load_witness :
    loadCustomInterestRate (some (JSNum.num 12.5)) = some 12.5 ∧
    (((handleSaveInterestRate (some (JSNum.num 12.5))).isSome ↔
        ∃ x, (some (JSNum.num 12.5) : Option JSNum) = some (JSNum.num x)) ∧
      (0.1 ≤ (12.5 : ℚ) ∧ (12.5 : ℚ) ≤ 100)) := by
  have hq : loadCustomInterestRate (some (JSNum.num 12.5)) = some 12.5 := by
    simp only [loadCustomInterestRate]
    rw [if_pos (by norm_num)]
  exact ⟨hq, C3_save_and_load (some (JSNum.num 12.5)) (JSNum.num 12.5) 12.5 hq⟩

/-- C4 as stated is false: the parsed value `0.5` lies strictly between
0 and 1,000,000 yet is rejected by the schema (`.min(1)`). -/
theorem C4_counterexample :
    validateLoanAmount (1/2) = some "Loan amount must be greater than 0" ∧
    ¬((1/2 : ℚ) ≤ 0 ∨ 1000000 < (1/2 : ℚ)) := by
  constructor
  · unfold validateLoanAmount
    rw [if_pos (by norm_num)]
  · norm_num

/-- C4 amended: validation of the parsed `loanAmount` fails with a range
error exactly when the value is `< 1` or `> 1,000,000`; every value in
`[1, 1000000]` passes (the lower error message still reads "greater
than 0", but the enforced minimum is 1). -/
theorem C4_loan_amount_bounds (v : ℚ) :
    validateLoanAmount v = none ↔ 1 ≤ v ∧ v ≤ 1000000 := by
  unfold validateLoanAmount
  split_ifs with h1 h2
  · refine iff_of_false (by simp) ?_
    rintro ⟨ha, -⟩
    linarith
  · refine iff_of_false (by simp) ?_
    rintro ⟨-, hb⟩
    linarith
  · exact iff_of_true rfl ⟨by linarith, by linarith⟩

/-- C6 as stated is false: a `NaN` months value is left unchanged on
blur rather than replaced by 1 (`NaN || 0` evaluates to `0`, so the
`isNaN` guard never fires, and `NaN < 1` is `false`). -/
theorem C6_counterexample :
    handleMonthsBlur (some JSNum.nan) = some JSNum.nan ∧
    (some JSNum.nan : Option JSNum) ≠ some (JSNum.num 1) := by
  refine ⟨rfl, ?_⟩
  intro h
  exact JSNum.noConfusion (Option.some.inj h)

/-- C6 amended: on blur, an undefined or sub-1 numeric months value is
replaced by 1, a numeric value above 360 is replaced by 360, a numeric
value already in `[1, 360]` is left unchanged — and a `NaN` value is
also left unchanged, because the code's `isNaN(currentMonths || 0)`
guard always tests 0. -/
theorem C6_months_blur_repair (cur : Option JSNum) :
    handleMonthsBlur cur =
      match cur with
      | none => some (JSNum.num 1)
      | some JSNum.nan => some JSNum.nan
      | some (JSNum.num q) =>
          if q < 1 then some (JSNum.num 1)
          else if 360 < q then some (JSNum.num 360)
          else some (JSNum.num q) := by
  rcases cur with _ | j
  · rfl
  rcases j with _ | q
  · rfl
  show handleMonthsBlur (some (JSNum.num q)) =
    if q < 1 then some (JSNum.num 1)
    else if 360 < q then some (JSNum.num 360)
    else some (JSNum.num q)
  unfold handleMonthsBlur
  by_cases h1 : q < 1
  · rw [if_pos h1, if_pos (by simp [jsIsNaN_jsOrZero, some_beq_none, jsLt, h1])]
  · rw [if_neg (by simp [jsIsNaN_jsOrZero, some_beq_none, jsLt, h1]), if_neg h1]
    by_cases h2 : 360 < q
    · rw [if_pos h2, if_pos (by simp [jsGt, h2])]
    · rw [if_neg (by simp [jsGt, h2]), if_neg h2]

end LoanCalc
